import Mathlib

/-!
Verification of the metric resolution session engine (`sqless_agent`).

This file gives a shallow embedding, in Lean 4, of the Python modules
`models.py`, `intent.py`, `stores.py`, `gate.py`, `clarification.py`,
`conflict.py`, `expert.py`, `sql_generator.py` and `agent.py`, and proves
or refutes the specification claims about them.

Modelling conventions:
* Python floats carrying scores/thresholds are modelled as exact rationals
  (`ℚ`); the thresholds 0.85/0.65/0.15 and weight constants are exact.
* Python `dict` fields that the code mutates key-by-key are modelled as
  association lists with in-place update (matching CPython's
  insertion-order-preserving replace-in-place semantics).
* Python truthiness tests on `Optional[str]` (`if x:`) are modelled by
  `opt_str_truthy` (false for `None` and for the empty string); tests on
  optional dataclass instances are `Option.isSome`.
* `str.format` with simple named fields is modelled by `py_format`
  (template parsing into segments followed by substitution); a missing
  field name or a stray brace yields `none`, matching the
  `KeyError`/`ValueError` raised by CPython.
* Mutating methods become state-passing functions `SessionState → SessionState`.
-/

set_option linter.unusedVariables false
set_option maxRecDepth 100000

namespace Sqless

/-- Python `sub in s` substring test on strings. -/
def contains_sub (s sub : String) : Bool :=
  decide (sub.toList <:+: s.toList)

/-- Python `str.lower()` (character-wise; coincides with CPython on the
ASCII/CJK strings this code base handles, and is kernel-computable). -/
def str_lower (s : String) : String :=
  String.mk (s.toList.map Char.toLower)

/-- Python truthiness of an `Optional[str]`: `None` and `""` are falsy. -/
def opt_str_truthy : Option String → Bool
  | none => false
  | some s => s ≠ ""

/-- CPython dict assignment `d[k] = v`: replaces the value in place if the
key is present (keeping its position), otherwise appends the pair. -/
def dictInsert {α : Type} (k : String) (v : α) : List (String × α) → List (String × α)
  | [] => [(k, v)]
  | (k', v') :: rest => if k = k' then (k, v) :: rest else (k', v') :: dictInsert k v rest

/-- CPython `d.get(k)`: the value stored at `k`, if any. -/
def dictLookup {α : Type} (k : String) : List (String × α) → Option α
  | [] => none
  | (k', v) :: rest => if k = k' then some v else dictLookup k rest

/-! ## Data model (`models.py`)

Only the fields that the embedded operations read are kept; the
datetime bookkeeping fields (`created_at`, `updated_at`, changelog
timestamps) and the unused `security`/`quality` blocks are omitted. -/

/-- `MetricMeta` (`models.py`). -/
structure MetricMeta where
  name : String
  aliases : List String
  domain : String
  description : String
  status : String
  owner : String
  verified_by : Option String := none
  usage_count : Nat := 0
  tags : List String := []
  deriving DecidableEq

/-- `Grain` (`models.py`). -/
structure Grain where
  time_granularity : String
  dimensions : List String
  deriving DecidableEq

/-- `TimeSemantics` (`models.py`). -/
structure TimeSemantics where
  event_time : String
  timezone : String
  business_day_rule : String
  deriving DecidableEq

/-- `Filter` (`models.py`); renamed to avoid clashing with Mathlib's `Filter`. -/
structure MetricFilter where
  expr : String
  desc : Option String := none
  deriving DecidableEq

/-- `IndustryMapping` (`models.py`). -/
structure IndustryMapping where
  type : String
  version : String
  dim_table : String
  join_key : String
  deriving DecidableEq

/-- `Attribution` (`models.py`). -/
structure Attribution where
  mode : String
  desc : Option String := none
  deriving DecidableEq

/-- `Semantics` (`models.py`). -/
structure Semantics where
  metric_type : String
  default_measure : String
  grain : Grain
  time_semantics : TimeSemantics
  filters : List MetricFilter := []
  industry_mapping : Option IndustryMapping := none
  attribution : Option Attribution := none
  metric_caliber : Option String := none
  deriving DecidableEq

/-- `DimensionJoin` (`models.py`). -/
structure DimensionJoin where
  dim_table : String
  fact_key : String
  dim_key : String
  select_cols : List String
  deriving DecidableEq

/-- `PhysicalMapping` (`models.py`). -/
structure PhysicalMapping where
  fact_table : String
  time_column : String
  measure_column : String
  dimension_joins : List DimensionJoin := []
  partition_hint : Option String := none
  sql_template : Option String := none
  deriving DecidableEq

/-- `Governance` (`models.py`), without the datetime validity window. -/
structure Governance where
  version : String
  conflict_policy : String := "prefer_latest_verified"
  deriving DecidableEq

/-- `MetricSpec` (`models.py`). -/
structure MetricSpec where
  spec_id : String
  meta : MetricMeta
  semantics : Semantics
  physical : PhysicalMapping
  governance : Governance
  deriving DecidableEq

/-- `Candidate` (`models.py`): a (specification, score) pair. -/
structure Candidate where
  spec : MetricSpec
  score : ℚ
  deriving DecidableEq

/-- `ParsedIntent` (`models.py`). -/
structure ParsedIntent where
  raw_query : String
  metrics : List String
  dimensions : List String
  time_range : Option String
  granularity : Option String
  filters : List String := []
  deriving DecidableEq

/-- `ClarificationQuestion` (`models.py`). -/
structure ClarificationQuestion where
  slot : String
  question : String
  options : List String
  recommended : Option String := none
  deriving DecidableEq

/-- `ClarificationAnswer` (`models.py`). -/
structure ClarificationAnswer where
  slot : String
  value : String
  deriving DecidableEq

/-- `ConflictOption` (`models.py`). -/
structure ConflictOption where
  option_id : String
  label : String
  consequence : String
  apply_granularity : Option String := none
  apply_metric_caliber : Option String := none
  deriving DecidableEq

/-- `ConflictNotice` (`models.py`). -/
structure ConflictNotice where
  code : String
  message : String
  options : List ConflictOption
  deriving DecidableEq

/-- `SessionState` (`models.py`). `clarifications` is the slot-keyed dict. -/
structure SessionState where
  session_id : String
  user : String
  intent : ParsedIntent
  candidates : List Candidate := []
  clarifications : List (String × ClarificationAnswer) := []
  selected_spec : Option MetricSpec := none
  confidence : ℚ := 0
  route_expert : Bool := false
  conflict : Option ConflictNotice := none
  forwarded_to : Option String := none
  deriving DecidableEq

/-! ## Intent parser (`intent.py`) -/

/-- `IntentParser` default keyword list. -/
def default_metric_keywords : List String := ["gmv", "订单", "转化"]

/-- The regex search `(\d{1,2})月` of `IntentParser._extract_time_range`:
leftmost match, greedily two digits then backtracking to one, followed by
the character `月`; returns the digit group. -/
def time_range_scan : List Char → Option String
  | [] => none
  | c :: rest =>
    if c.isDigit then
      match rest with
      | d :: m :: _ =>
        if d.isDigit ∧ m = '月' then some (String.mk [c, d])
        else if d = '月' then some (String.mk [c])
        else time_range_scan rest
      | [d] => if d = '月' then some (String.mk [c]) else time_range_scan rest
      | [] => none
    else time_range_scan rest

/-- `IntentParser._extract_time_range`. -/
def extract_time_range (query : String) : Option String :=
  match time_range_scan query.toList with
  | some g => some ("最近的 " ++ g ++ " 月")
  | none => none

/-- `IntentParser.parse` (with the default keyword configuration). -/
def parse_intent (query : String) : ParsedIntent :=
  let keywords := default_metric_keywords
  let metrics := keywords.filter (fun kw => contains_sub (str_lower query) (str_lower kw))
  let dimensions := ["行业", "类目", "渠道"].filter (fun m => contains_sub query m)
  let time_range := extract_time_range query
  let granularity := if contains_sub query "日" ∨ contains_sub query "天" then some "天" else none
  { raw_query := query, metrics, dimensions, time_range, granularity }

/-! ## Conflict detector and resolver (`conflict.py`) -/

/-- `ConflictDetector.detect`. -/
def conflict_detect (intent : ParsedIntent) : Option ConflictNotice :=
  let granular := intent.granularity.getD ""
  let has_settlement := contains_sub intent.raw_query "结算"
  let wants_daily :=
    (["当日", "当天", "日", "天"].any (fun token => contains_sub intent.raw_query token))
      ∨ granular = "天" ∨ granular = "日"
  if has_settlement ∧ wants_daily then
    some
      { code := "settle_vs_daily"
        message := "检测到潜在冲突：结算口径通常有延迟，按天看波动可能不准确。"
        options :=
          [ { option_id := "settle_weekly"
              label := "保持结算口径，粒度改为周"
              consequence := "将时间粒度调整为周以匹配结算滞后"
              apply_granularity := some "周" },
            { option_id := "switch_pay"
              label := "保持日粒度，改用支付口径"
              consequence := "改为支付/下单口径以获得当日数据"
              apply_metric_caliber := some "支付" } ] }
  else none

/-- `apply_conflict_option` (`conflict.py`): truthy overrides are applied to
the intent; a caliber override is recorded as an annotation string appended
to the intent's filter list. -/
def apply_conflict_option (intent : ParsedIntent) (option : ConflictOption) : ParsedIntent :=
  let intent :=
    if opt_str_truthy option.apply_granularity then
      { intent with granularity := option.apply_granularity }
    else intent
  if opt_str_truthy option.apply_metric_caliber then
    { intent with
        filters := intent.filters ++ ["口径调整为" ++ option.apply_metric_caliber.getD ""] }
  else intent

/-! ## Confidence gate (`gate.py`) -/

/-- `UncertaintyGate.high_conf_threshold` default. -/
def high_conf_threshold : ℚ := 0.85

/-- `UncertaintyGate.clarifying_threshold` default. -/
def clarifying_threshold : ℚ := 0.65

/-- `UncertaintyGate.evaluate` as a state transformer. -/
def gate_evaluate (state : SessionState) : SessionState :=
  match state.candidates with
  | [] => { state with route_expert := true, confidence := 0 }
  | top :: rest =>
    let second_score : ℚ := match rest with | [] => 0 | c2 :: _ => c2.score
    let state := { state with confidence := top.score }
    if top.score ≥ high_conf_threshold ∧ top.score - second_score ≥ 0.15 then
      { state with selected_spec := some top.spec, route_expert := false }
    else if top.score ≥ clarifying_threshold then
      { state with route_expert := false }
    else
      { state with route_expert := true }

/-- `UncertaintyGate.needs_clarification`. -/
def needs_clarification (state : SessionState) : Bool :=
  state.selected_spec.isNone

/-! ## Asset store and candidate retrieval (`stores.py`) -/

/-- `AssetStore`: the two spec pools, in insertion order (CPython dicts
enumerate values in insertion order). -/
structure AssetStore where
  cold_specs : List MetricSpec := []
  hot_specs : List MetricSpec := []
  deriving DecidableEq

/-- `AssetStore.get_all`: cold pool then hot pool. -/
def get_all (store : AssetStore) : List MetricSpec :=
  store.cold_specs ++ store.hot_specs

/-- `CandidateSelector._score_spec`. Note that `name` and each alias are
lowercased but the tags are inserted as-is. -/
def score_spec (spec : MetricSpec) (keywords : Finset String) : ℚ :=
  let name_tokens : Finset String :=
    insert (str_lower spec.meta.name)
      ((spec.meta.aliases.map str_lower).toFinset ∪ spec.meta.tags.toFinset)
  let overlap : ℚ := (keywords ∩ name_tokens).card
  let freshness : ℚ := if spec.meta.status = "verified" then 1 else 0.85
  let usage_bonus : ℚ := min ((spec.meta.usage_count : ℚ) / 100) 0.1
  overlap * 0.6 + freshness * 0.3 + usage_bonus

/-- The order realised by CPython's stable descending sort
(`list.sort(key=..., reverse=True)`) on an index-tagged list: strictly
greater key first, and among equal keys the smaller original index first.
This relation is total, transitive, and antisymmetric on lists with
pairwise-distinct indices, so the sorted result below is exactly the
(unique) stable descending reordering. -/
def rkey {α : Type} {β : Type} [LinearOrder β] (key : α → β) (a b : ℕ × α) : Prop :=
  key b.2 < key a.2 ∨ (key a.2 = key b.2 ∧ a.1 ≤ b.1)

instance {α β : Type} [LinearOrder β] (key : α → β) : DecidableRel (rkey key) :=
  fun a b => by unfold rkey; infer_instance

instance {α β : Type} [LinearOrder β] (key : α → β) : IsTotal (ℕ × α) (rkey key) where
  total a b := by
    rcases lt_trichotomy (key a.2) (key b.2) with h | h | h
    · exact Or.inr (Or.inl h)
    · rcases Nat.le_total a.1 b.1 with h' | h'
      · exact Or.inl (Or.inr ⟨h, h'⟩)
      · exact Or.inr (Or.inr ⟨h.symm, h'⟩)
    · exact Or.inl (Or.inl h)

instance {α β : Type} [LinearOrder β] (key : α → β) : IsTrans (ℕ × α) (rkey key) where
  trans a b c hab hbc := by
    rcases hab with hab | ⟨hab, hab'⟩ <;> rcases hbc with hbc | ⟨hbc, hbc'⟩
    · exact Or.inl (hbc.trans hab)
    · exact Or.inl (hbc ▸ hab)
    · exact Or.inl (hab ▸ hbc)
    · exact Or.inr ⟨hab.trans hbc, hab'.trans hbc'⟩

/-- CPython stable descending sort by `key`, on an index-tagged copy of the
list (the index records the original position). -/
def stable_sort_desc_idx {α : Type} {β : Type} [LinearOrder β] (key : α → β)
    (l : List α) : List (ℕ × α) :=
  List.insertionSort (rkey key) l.enum

/-- CPython `sorted(l, key=key, reverse=True)` (stable). -/
def stable_sort_desc {α : Type} {β : Type} [LinearOrder β] (key : α → β)
    (l : List α) : List α :=
  (stable_sort_desc_idx key l).map Prod.snd

/-- `CandidateSelector.retrieve`: lowercase the keywords, score every
catalog entry in enumeration order, stable-sort by score descending, keep
the first `top_k`. -/
def retrieve (store : AssetStore) (intent_keywords : List String)
    (top_k : Nat := 5) : List Candidate :=
  let keywords : Finset String := (intent_keywords.map str_lower).toFinset
  let scored : List (MetricSpec × ℚ) :=
    (get_all store).map (fun spec => (spec, score_spec spec keywords))
  ((stable_sort_desc Prod.snd scored).take top_k).map
    (fun p => { spec := p.1, score := p.2 })

/-! ## Clarification engine (`clarification.py`) -/

/-- `ClarificationEngine.QUESTION_BANK`. -/
def QUESTION_BANK : List ClarificationQuestion :=
  [ { slot := "metric_caliber"
      question := "请选择 GMV 口径"
      options := ["下单", "支付", "结算"]
      recommended := some "支付" },
    { slot := "industry_mapping"
      question := "请选择行业定义"
      options := ["类目行业", "商家行业", "内容行业"]
      recommended := some "类目行业" },
    { slot := "time_semantics"
      question := "请选择时间口径"
      options := ["自然日(UTC+8)", "业务日"]
      recommended := some "自然日(UTC+8)" } ]

/-- `ClarificationEngine._slot_values_for_spec`: the per-spec slot-value
dict, in construction order. -/
def slot_values_for_spec (spec : MetricSpec) : List (String × String) :=
  (if opt_str_truthy spec.semantics.metric_caliber then
      [("metric_caliber", spec.semantics.metric_caliber.getD "")]
    else []) ++
  (match spec.semantics.industry_mapping with
    | some im =>
      [("industry_mapping",
        if contains_sub im.dim_table "merchant" ∨ contains_sub im.dim_table "shop" then
          "商家行业"
        else "类目行业")]
    | none => []) ++
  [("time_semantics",
    if contains_sub spec.semantics.time_semantics.business_day_rule "natural" then
      "自然日(UTC+8)"
    else "业务日")]

/-- A `collections.Counter` built by `counts[v] += 1` over a value stream:
association list in first-occurrence order. -/
def bump_count (counts : List (String × Nat)) (v : String) : List (String × Nat) :=
  match counts with
  | [] => [(v, 1)]
  | (v', c) :: rest => if v = v' then (v, c + 1) :: rest else (v', c) :: bump_count rest v

/-- `Counter.most_common(1)`: the first-inserted entry of maximal count. -/
def most_common_1 (counts : List (String × Nat)) : Option String :=
  counts.foldl
    (fun best p =>
      match best with
      | none => some p
      | some b => if p.2 > b.2 then some p else some b)
    none
  |>.map Prod.fst

/-- `ClarificationEngine._recommended_value`. -/
def recommended_value (slot : String) (state : SessionState) : Option String :=
  match state.selected_spec with
  | some spec =>
    match dictLookup slot (slot_values_for_spec spec) with
    | some v => some v
    | none => recommended_value_fallback slot state
  | none => recommended_value_fallback slot state
where
  /-- The counter/bank fallback of `_recommended_value`. -/
  recommended_value_fallback (slot : String) (state : SessionState) : Option String :=
    let counts := state.candidates.foldl
      (fun counts candidate =>
        match dictLookup slot (slot_values_for_spec candidate.spec) with
        | some v => if v ≠ "" then bump_count counts v else counts
        | none => counts)
      []
    match most_common_1 counts with
    | some v => some v
    | none =>
      match QUESTION_BANK.find? (fun q => q.slot = slot) with
      | some q => q.recommended
      | none => none

/-- The distinct slot values across the session's candidates
(the `values` set computed inside `next_questions`). -/
def slot_values_across (state : SessionState) (slot : String) : Finset String :=
  (state.candidates.filterMap
    (fun candidate => dictLookup slot (slot_values_for_spec candidate.spec))).toFinset

/-- The `ranked` list built by `ClarificationEngine.next_questions` before
sorting: unanswered bank questions with positive information gain, paired
with their gain and refreshed recommended value. -/
def ranked_questions (state : SessionState) : List (Nat × ClarificationQuestion) :=
  QUESTION_BANK.filterMap
    (fun question =>
      if (dictLookup question.slot state.clarifications).isSome then none
      else
        let gain0 := (slot_values_across state question.slot).card
        let info_gain := if gain0 = 0 ∧ state.selected_spec.isSome then 1 else gain0
        if info_gain > 0 then
          some (info_gain,
            { slot := question.slot
              question := question.question
              options := question.options
              recommended := recommended_value question.slot state })
        else none)

/-- `ClarificationEngine.next_questions` (default `max_questions = 3`). -/
def next_questions (state : SessionState) (max_questions : Nat := 3) :
    List ClarificationQuestion :=
  ((stable_sort_desc Prod.fst (ranked_questions state)).take max_questions).map Prod.snd

/-- `ClarificationEngine.apply_answers`. -/
def apply_answers (state : SessionState) (answers : List ClarificationAnswer) :
    SessionState :=
  { state with
      clarifications :=
        answers.foldl (fun m a => dictInsert a.slot a m) state.clarifications }

/-! ## SQL renderer (`sql_generator.py`)

`str.format` on the templates used here (simple named fields, with
`{{`/`}}` escapes) is modelled in two faithful stages: parse the template
into literal/field segments, then substitute the named fields.  A field
name missing from the mapping models CPython's `KeyError`, an unterminated
or stray brace models its `ValueError`; both yield `none`. -/

/-- One parsed segment of a format template. -/
inductive TemplateSeg where
  | lit (s : String)
  | field (name : String)
  deriving DecidableEq

/-- Prepend a literal character to a segment list, merging with a leading
literal segment. -/
def consLit (c : Char) : List TemplateSeg → List TemplateSeg
  | TemplateSeg.lit s :: rest => TemplateSeg.lit (String.mk (c :: s.toList)) :: rest
  | segs => TemplateSeg.lit (String.mk [c]) :: segs

/-- Collect a field name up to the closing brace. -/
def split_field : List Char → Option (List Char × List Char)
  | [] => none
  | c :: rest =>
    if c = '\x7d' then some ([], rest)
    else
      match split_field rest with
      | some (nm, rem) => some (c :: nm, rem)
      | none => none

/-- Template scanner (fuelled structural recursion; the fuel in
`parse_template` always suffices because every step consumes at least one
character). -/
def parse_segs (fuel : Nat) (cs : List Char) : Option (List TemplateSeg) :=
  match fuel, cs with
  | _, [] => some []
  | 0, _ => none
  | fuel + 1, '\x7b' :: '\x7b' :: rest => (parse_segs fuel rest).map (consLit '\x7b')
  | fuel + 1, '\x7d' :: '\x7d' :: rest => (parse_segs fuel rest).map (consLit '\x7d')
  | fuel + 1, '\x7b' :: rest =>
    match split_field rest with
    | some (nm, rem) =>
      (parse_segs fuel rem).map (fun segs => TemplateSeg.field (String.mk nm) :: segs)
    | none => none
  | _ + 1, '\x7d' :: _ => none
  | fuel + 1, c :: rest => (parse_segs fuel rest).map (consLit c)

/-- Parse a whole format template. -/
def parse_template (t : String) : Option (List TemplateSeg) :=
  parse_segs (t.toList.length + 1) t.toList

/-- Substitute the named fields of a parsed template. -/
def render_segs (m : String → Option String) : List TemplateSeg → Option String
  | [] => some ""
  | TemplateSeg.lit s :: rest => (render_segs m rest).map (fun t => s ++ t)
  | TemplateSeg.field k :: rest =>
    match m k with
    | some v => (render_segs m rest).map (fun t => v ++ t)
    | none => none

/-- `template.format(**kwargs)` for simple named fields. -/
def py_format (t : String) (m : String → Option String) : Option String :=
  (parse_template t).bind (render_segs m)

/-- The built-in default template of `SQLGenerator.render`. -/
def default_template : String :=
  "-- Show Your Work: {fact_table} / {time_column} / {measure_column}\n" ++
  "SELECT {time_bucket} AS time_bucket, SUM({measure_column}) AS metric\n" ++
  "FROM {fact_table}\n" ++
  "WHERE {time_column} IS NOT NULL AND {where_clause}\n" ++
  "GROUP BY {time_bucket}\n" ++
  "ORDER BY {time_bucket};"

/-- The `where_parts` list built by `SQLGenerator.render`, in order: spec
filters, time-range annotation, then the three clarification annotations. -/
def where_parts (spec : MetricSpec) (state : SessionState) : List String :=
  spec.semantics.filters.map MetricFilter.expr ++
  (if opt_str_truthy state.intent.time_range then
      ["-- 时间范围: " ++ state.intent.time_range.getD ""]
    else []) ++
  (match dictLookup "metric_caliber" state.clarifications with
    | some a => ["-- 口径: " ++ a.value]
    | none => []) ++
  (match dictLookup "industry_mapping" state.clarifications with
    | some a => ["-- 行业映射: " ++ a.value]
    | none => []) ++
  (match dictLookup "time_semantics" state.clarifications with
    | some a => ["-- 时间口径: " ++ a.value]
    | none => [])

/-- The composed WHERE clause (`1=1` when empty). -/
def where_clause (spec : MetricSpec) (state : SessionState) : String :=
  match where_parts spec state with
  | [] => "1=1"
  | parts => String.intercalate "\n    AND " parts

/-- The keyword mapping passed to `template.format` by `SQLGenerator.render`
(the four `slots` entries plus `where_clause`). -/
def render_slots (spec : MetricSpec) (state : SessionState) : String → Option String :=
  fun key =>
    if key = "time_bucket" then some spec.semantics.grain.time_granularity
    else if key = "fact_table" then some spec.physical.fact_table
    else if key = "time_column" then some spec.physical.time_column
    else if key = "measure_column" then some spec.physical.measure_column
    else if key = "where_clause" then some (where_clause spec state)
    else none

/-- `SQLGenerator.render`. An empty-string template override is falsy in
Python (`spec.physical.sql_template or default`), so it falls back to the
default template too. -/
def render (spec : MetricSpec) (state : SessionState) : Option String :=
  let template :=
    match spec.physical.sql_template with
    | some t => if t = "" then default_template else t
    | none => default_template
  py_format template (render_slots spec state)

/-! ## Expert routing and feedback (`expert.py`) -/

/-- `ExpertRouter.route`. -/
def expert_route (owners : List String) (state : SessionState) : List String :=
  owners.take 3

/-- `ExpertFeedbackApplier.apply`. -/
def expert_apply (state : SessionState) (spec : MetricSpec) : SessionState :=
  { state with selected_spec := some spec, route_expert := false }

/-! ## Agent operations (`agent.py`)

`uuid.uuid4()` is abstracted by passing the fresh session id as an
argument; nothing downstream depends on its value. -/

/-- `MetricAgent.start_session` up to and including the confidence gate
(the straight-line prefix of the method before the two overrides). -/
def start_session_core (store : AssetStore) (sid query user : String) : SessionState :=
  let intent := parse_intent query
  let session : SessionState := { session_id := sid, user, intent }
  let session := { session with conflict := conflict_detect intent }
  let keywords := if intent.metrics = [] then [query] else intent.metrics
  let session := { session with candidates := retrieve store keywords }
  gate_evaluate session

/-- `MetricAgent.start_session`. -/
def start_session (store : AssetStore) (sid query user : String)
    (force_expert : Bool := false) : SessionState :=
  let session := start_session_core store sid query user
  let session := if session.conflict.isSome then { session with route_expert := true }
    else session
  if force_expert then { session with route_expert := true } else session

/-- `MetricAgent.clarify`: apply the answers, then auto-select the top
candidate whenever the candidate list is non-empty. -/
def clarify (state : SessionState) (answers : List ClarificationAnswer) : SessionState :=
  let state := apply_answers state answers
  match state.candidates with
  | [] => state
  | c :: _ => { state with selected_spec := some c.spec }

/-- `MetricAgent.generate_sql`: `ValueError` when no spec is selected;
otherwise the renderer's output (whose own `str.format` failure on a
malformed template override propagates as an error). -/
def generate_sql (state : SessionState) : Except String String :=
  match state.selected_spec with
  | none => Except.error "No spec selected; cannot generate SQL"
  | some spec =>
    match render spec state with
    | some out => Except.ok out
    | none => Except.error "format error"

/-- `MetricAgent.apply_expert_decision`. -/
def apply_expert_decision (state : SessionState) (spec : Option Candidate := none) :
    SessionState :=
  let chosen : Option MetricSpec :=
    match state.candidates with
    | [] => none
    | c :: _ => some ((spec.getD c).spec)
  match chosen with
  | some sp => expert_apply state sp
  | none => state

/-- `MetricAgent.resolve_conflict`. -/
def resolve_conflict (state : SessionState) (option_id : String) : SessionState :=
  match state.conflict with
  | none => state
  | some conflict =>
    match conflict.options.find? (fun opt => opt.option_id = option_id) with
    | none => state
    | some option =>
      { state with
          intent := apply_conflict_option state.intent option
          conflict := none }

/-! ## Concrete fixtures used by witnesses and counterexamples -/

/-- A verified payment-caliber GMV spec at day grain. -/
def spec_pay_day : MetricSpec :=
  { spec_id := "gmv_pay_day"
    meta :=
      { name := "gmv", aliases := [], domain := "trade", description := "",
        status := "verified", owner := "o" }
    semantics :=
      { metric_type := "sum", default_measure := "amt"
        grain := { time_granularity := "天", dimensions := ["行业"] }
        time_semantics :=
          { event_time := "dt", timezone := "UTC+8", business_day_rule := "natural day" }
        filters := [{ expr := "status = 1" }]
        industry_mapping :=
          some { type := "cat", version := "v1", dim_table := "dim_industry", join_key := "iid" }
        metric_caliber := some "支付" }
    physical := { fact_table := "dws_trade_order_day", time_column := "dt", measure_column := "amt" }
    governance := { version := "1.0" } }

/-- A settlement-caliber GMV spec at week grain. -/
def spec_settle_week : MetricSpec :=
  { spec_id := "gmv_settle_week"
    meta :=
      { name := "settle_gmv", aliases := [], domain := "trade", description := "",
        status := "draft", owner := "o" }
    semantics :=
      { metric_type := "sum", default_measure := "amt"
        grain := { time_granularity := "周", dimensions := ["行业"] }
        time_semantics :=
          { event_time := "dt", timezone := "UTC+8", business_day_rule := "business day" }
        filters := []
        industry_mapping :=
          some { type := "cat", version := "v1", dim_table := "dim_settle_industry", join_key := "iid" }
        metric_caliber := some "结算" }
    physical := { fact_table := "dws_settle_week", time_column := "dt", measure_column := "amt" }
    governance := { version := "1.0" } }

/-- A draft spec whose only keyword hook is the upper-case tag `GMV`. -/
def spec_tag_case : MetricSpec :=
  { spec_id := "tagged"
    meta :=
      { name := "foo", aliases := [], domain := "trade", description := "",
        status := "draft", owner := "o", tags := ["GMV"] }
    semantics :=
      { metric_type := "sum", default_measure := "amt"
        grain := { time_granularity := "天", dimensions := [] }
        time_semantics :=
          { event_time := "dt", timezone := "UTC+8", business_day_rule := "natural day" } }
    physical := { fact_table := "t", time_column := "dt", measure_column := "amt" }
    governance := { version := "1.0" } }

/-- A spec whose SQL template override names a field the renderer does not
supply (CPython raises `KeyError` formatting it). -/
def spec_bad_template : MetricSpec :=
  { spec_pay_day with
      spec_id := "bad_template"
      physical := { spec_pay_day.physical with sql_template := some "{missing}" } }

/-- The parsed intent of a query that triggers the settlement-vs-daily
conflict notice. -/
def intent_conflict : ParsedIntent := parse_intent "gmv结算当日"

/-- A session holding the conflict notice with a day-grain spec selected. -/
def ses_conflict_day : SessionState :=
  { session_id := "s1", user := "u", intent := intent_conflict
    candidates := [{ spec := spec_pay_day, score := 0.9 }]
    selected_spec := some spec_pay_day
    confidence := 0.9, route_expert := true
    conflict := conflict_detect intent_conflict }

/-- A session holding the conflict notice with the week-grain spec selected. -/
def ses_conflict_week : SessionState :=
  { ses_conflict_day with session_id := "s2", selected_spec := some spec_settle_week }

/-- A session with no candidates at all. -/
def ses_no_candidates : SessionState :=
  { session_id := "s3", user := "u", intent := parse_intent "nothing" }

/-- A session with two candidates exhibiting two distinct calibers but a
single industry-mapping label. -/
def ses_two_cands : SessionState :=
  { session_id := "s4", user := "u", intent := parse_intent "gmv走势"
    candidates :=
      [{ spec := spec_pay_day, score := 0.8 }, { spec := spec_settle_week, score := 0.7 }]
    confidence := 0.8 }

/-- A session with the malformed-template spec selected. -/
def ses_bad_template : SessionState :=
  { session_id := "s5", user := "u", intent := parse_intent "gmv"
    selected_spec := some spec_bad_template }

/-- A candidate supplied explicitly by an expert. -/
def cand_supplied : Candidate := { spec := spec_settle_week, score := 0.5 }

/-- A one-spec catalog on which the gate auto-selects. -/
def store_gmv : AssetStore := { cold_specs := [], hot_specs := [spec_pay_day] }

/-- Whether the SQL generated for a session mentions a substring (false
when generation fails). -/
def sql_mentions (state : SessionState) (sub : String) : Bool :=
  match generate_sql state with
  | Except.ok out => contains_sub out sub
  | Except.error _ => false

/-- The `settle_weekly` option of the settlement-vs-daily notice. -/
def opt_settle_weekly : ConflictOption :=
  { option_id := "settle_weekly"
    label := "保持结算口径，粒度改为周"
    consequence := "将时间粒度调整为周以匹配结算滞后"
    apply_granularity := some "周" }

/-- The `switch_pay` option of the settlement-vs-daily notice. -/
def opt_switch_pay : ConflictOption :=
  { option_id := "switch_pay"
    label := "保持日粒度，改用支付口径"
    consequence := "改为支付/下单口径以获得当日数据"
    apply_metric_caliber := some "支付" }

/-- The settlement-vs-daily conflict notice. -/
def notice_settle : ConflictNotice :=
  { code := "settle_vs_daily"
    message := "检测到潜在冲突：结算口径通常有延迟，按天看波动可能不准确。"
    options := [opt_settle_weekly, opt_switch_pay] }

/-- A clarification answer fixture. -/
def ans_caliber : ClarificationAnswer := { slot := "metric_caliber", value := "支付" }

/-- A second answer for the same slot. -/
def ans_caliber2 : ClarificationAnswer := { slot := "metric_caliber", value := "结算" }

/-- The score `CandidateSelector.retrieve` uses for one entry: the keyword
list is lowercased into a set before `_score_spec` is called. -/
def retrieval_score (spec : MetricSpec) (intent_keywords : List String) : ℚ :=
  score_spec spec ((intent_keywords.map str_lower).toFinset)

/-- Modelled from the claim's words, for comparison with the code: the
scoring formula with the tag set lowercased like the name and aliases. -/
def claimed_score (spec : MetricSpec) (intent_keywords : List String) : ℚ :=
  let keywords := (intent_keywords.map str_lower).toFinset
  let name_tokens :=
    insert (str_lower spec.meta.name)
      ((spec.meta.aliases.map str_lower).toFinset ∪
        (spec.meta.tags.map str_lower).toFinset)
  0.6 * ((keywords ∩ name_tokens).card : ℚ) +
    0.3 * (if spec.meta.status = "verified" then 1 else 0.85) +
    min ((spec.meta.usage_count : ℚ) / 100) 0.1

/-- The string `SQLGenerator.render` produces through the default template
(spelled out segment by segment, exactly as the substitution emits it). -/
def rendered_default (spec : MetricSpec) (state : SessionState) : String :=
  "-- Show Your Work: " ++ (spec.physical.fact_table ++ (" / " ++
    (spec.physical.time_column ++ (" / " ++ (spec.physical.measure_column ++
    ("\nSELECT " ++ (spec.semantics.grain.time_granularity ++
    (" AS time_bucket, SUM(" ++ (spec.physical.measure_column ++
    (") AS metric\nFROM " ++ (spec.physical.fact_table ++
    ("\nWHERE " ++ (spec.physical.time_column ++ (" IS NOT NULL AND " ++
    (where_clause spec state ++ ("\nGROUP BY " ++
    (spec.semantics.grain.time_granularity ++ ("\nORDER BY " ++
    (spec.semantics.grain.time_granularity ++ (";" ++ ""))))))))))))))))))))

/-- The scored list `CandidateSelector.retrieve` builds, in catalog
enumeration order (cold pool, then hot pool). -/
def scored_list (store : AssetStore) (intent_keywords : List String) :
    List (MetricSpec × ℚ) :=
  (get_all store).map
    (fun spec => (spec, score_spec spec ((intent_keywords.map str_lower).toFinset)))

/-- The index-tagged stable descending sort of the scored list (the index
is the catalog enumeration position). -/
def retrieve_idx (store : AssetStore) (intent_keywords : List String) :
    List (ℕ × (MetricSpec × ℚ)) :=
  stable_sort_desc_idx Prod.snd (scored_list store intent_keywords)

/-! ## Dictionary lemmas -/

theorem dictInsert_same {α : Type} (k : String) (v v' : α) (m : List (String × α)) :
    dictInsert k v' (dictInsert k v m) = dictInsert k v' m := by
  induction m with
  | nil => simp [dictInsert]
  | cons p rest ih =>
    obtain ⟨k', w⟩ := p
    by_cases hk : k = k' <;> simp [dictInsert, hk, ih]

theorem dictInsert_idem {α : Type} (k : String) (v : α) (m : List (String × α)) :
    dictInsert k v (dictInsert k v m) = dictInsert k v m :=
  dictInsert_same k v v m

theorem dictLookup_dictInsert_self {α : Type} (k : String) (v : α) (m : List (String × α)) :
    dictLookup k (dictInsert k v m) = some v := by
  induction m with
  | nil => simp [dictInsert, dictLookup]
  | cons p rest ih =>
    obtain ⟨k', w⟩ := p
    by_cases hk : k = k' <;> simp [dictInsert, dictLookup, hk, ih]

theorem dictLookup_dictInsert_ne {α : Type} (k k' : String) (v : α) (m : List (String × α))
    (h : k' ≠ k) : dictLookup k' (dictInsert k v m) = dictLookup k' m := by
  induction m with
  | nil => simp [dictInsert, dictLookup, h]
  | cons p rest ih =>
    obtain ⟨k'', w⟩ := p
    by_cases hk : k = k''
    · subst hk
      simp [dictInsert, dictLookup, h]
    · by_cases hk' : k' = k'' <;> simp [dictInsert, dictLookup, hk, hk', ih]

/-- Applying a list of answers on top of a dict keeps every present key
present. -/
theorem dictLookup_foldl_isSome (answers : List ClarificationAnswer) (k : String)
    (m : List (String × ClarificationAnswer)) (h : (dictLookup k m).isSome = true) :
    (dictLookup k (answers.foldl (fun m a => dictInsert a.slot a m) m)).isSome = true := by
  induction answers generalizing m with
  | nil => simpa using h
  | cons a rest ih =>
    refine ih _ ?_
    by_cases hk : k = a.slot
    · subst hk
      simp [dictLookup_dictInsert_self]
    · rw [dictLookup_dictInsert_ne _ _ _ _ hk]
      exact h

/-- Every answered slot is present after the fold. -/
theorem dictLookup_foldl_mem (answers : List ClarificationAnswer)
    (m : List (String × ClarificationAnswer)) (a : ClarificationAnswer) (ha : a ∈ answers) :
    (dictLookup a.slot (answers.foldl (fun m a => dictInsert a.slot a m) m)).isSome = true := by
  induction answers generalizing m with
  | nil => cases ha
  | cons b rest ih =>
    rcases List.mem_cons.mp ha with hb | hb
    · subst hb
      exact dictLookup_foldl_isSome rest _ _ (by simp [dictLookup_dictInsert_self])
    · exact ih _ hb

/-- The last answer of the list wins for its slot. -/
theorem dictLookup_foldl_getLast (answers : List ClarificationAnswer)
    (m : List (String × ClarificationAnswer)) (a : ClarificationAnswer)
    (ha : answers.getLast? = some a) :
    dictLookup a.slot (answers.foldl (fun m a => dictInsert a.slot a m) m) = some a := by
  rcases List.eq_nil_or_concat answers with rfl | ⟨l, b, rfl⟩
  · simp at ha
  · have hb : b = a := by simpa [List.getLast?_concat] using ha
    subst hb
    rw [List.concat_eq_append, List.foldl_append, List.foldl_cons, List.foldl_nil]
    exact dictLookup_dictInsert_self _ _ _

/-! ## C8: idempotence and overwrite of clarification answers -/

/-- C8: applying the same clarification answer twice leaves exactly the
same session state as applying it once; a second answer for the same slot
overwrites the first (so only the last write is kept), and the applied
answer is what the slot maps to afterwards. -/
theorem claim_c8_apply_answers_idempotent :
    (∀ (s : SessionState) (a : ClarificationAnswer),
      apply_answers (apply_answers s [a]) [a] = apply_answers s [a]) ∧
    (∀ (s : SessionState) (a a' : ClarificationAnswer), a'.slot = a.slot →
      apply_answers s [a, a'] = apply_answers s [a']) ∧
    (∀ (s : SessionState) (a : ClarificationAnswer),
      dictLookup a.slot (apply_answers s [a]).clarifications = some a) := by
  refine ⟨?_, ?_, ?_⟩
  · intro s a
    simp [apply_answers, dictInsert_idem]
  · intro s a a' h
    simp [apply_answers, h, dictInsert_same]
  · intro s a
    simp [apply_answers, dictLookup_dictInsert_self]

/-- C8 witness at concrete inputs. -/
theorem claim_c8_witness :
    apply_answers (apply_answers ses_two_cands [ans_caliber]) [ans_caliber] =
        apply_answers ses_two_cands [ans_caliber] ∧
      ans_caliber2.slot = ans_caliber.slot ∧
      apply_answers ses_two_cands [ans_caliber, ans_caliber2] =
        apply_answers ses_two_cands [ans_caliber2] ∧
      dictLookup ans_caliber.slot (apply_answers ses_two_cands [ans_caliber]).clarifications =
        some ans_caliber :=
  ⟨claim_c8_apply_answers_idempotent.1 ses_two_cands ans_caliber, rfl,
    claim_c8_apply_answers_idempotent.2.1 ses_two_cands ans_caliber ans_caliber2 rfl,
    claim_c8_apply_answers_idempotent.2.2 ses_two_cands ans_caliber⟩

/-! ## C6: clarify records answers and unconditionally auto-selects -/

/-- C6: on a session with a non-empty candidate list, `clarify` with at
least one answer records the answers slot-by-slot (each answered slot is
present, the last answer for a slot wins) and then sets `selected_spec` to
the top candidate's spec, leaving confidence and the expert flag as they
were. -/
theorem claim_c6_clarify_auto_selects (s : SessionState)
    (answers : List ClarificationAnswer) (c : Candidate) (rest : List Candidate)
    (hc : s.candidates = c :: rest) (hne : answers ≠ []) :
    (clarify s answers).selected_spec = some c.spec ∧
    (clarify s answers).clarifications =
      answers.foldl (fun m a => dictInsert a.slot a m) s.clarifications ∧
    (clarify s answers).route_expert = s.route_expert ∧
    (clarify s answers).confidence = s.confidence ∧
    (∀ a, answers.getLast? = some a →
      dictLookup a.slot (clarify s answers).clarifications = some a) ∧
    (∀ a ∈ answers,
      (dictLookup a.slot (clarify s answers).clarifications).isSome = true) := by
  refine ⟨?_, ?_, ?_, ?_, ?_, ?_⟩ <;>
    simp [clarify, apply_answers, hc]
  · intro a ha
    exact dictLookup_foldl_getLast answers _ a ha
  · intro a ha
    exact dictLookup_foldl_mem answers _ a ha

/-- C6 witness at concrete inputs. -/
theorem claim_c6_witness :
    ses_two_cands.candidates = { spec := spec_pay_day, score := 0.8 } ::
        [{ spec := spec_settle_week, score := 0.7 }] ∧
      [ans_caliber] ≠ [] ∧
      (clarify ses_two_cands [ans_caliber]).selected_spec = some spec_pay_day ∧
      (clarify ses_two_cands [ans_caliber]).route_expert = ses_two_cands.route_expert :=
  ⟨rfl, by simp,
    (claim_c6_clarify_auto_selects ses_two_cands [ans_caliber] _ _ rfl (by simp)).1,
    (claim_c6_clarify_auto_selects ses_two_cands [ans_caliber] _ _ rfl (by simp)).2.2.1⟩

/-! ## C2: confidence gate policy -/

/-- C2: the gate sets confidence to the top score (0 with `route_expert`
and no selection when there are no candidates), auto-selects the top
candidate with `route_expert = false` exactly when `s1 ≥ 0.85` and
`s1 − s2 ≥ 0.15`, otherwise makes no selection and clears `route_expert`
iff `s1 ≥ 0.65`. -/
theorem claim_c2_gate_policy (s : SessionState) :
    (s.candidates = [] →
      (gate_evaluate s).confidence = 0 ∧ (gate_evaluate s).route_expert = true ∧
      (gate_evaluate s).selected_spec = s.selected_spec) ∧
    (∀ top rest, s.candidates = top :: rest →
      (gate_evaluate s).confidence = top.score ∧
      ((top.score ≥ high_conf_threshold ∧
          top.score - ((rest.head?.map Candidate.score).getD 0) ≥ 0.15) →
        (gate_evaluate s).selected_spec = some top.spec ∧
        (gate_evaluate s).route_expert = false) ∧
      (¬(top.score ≥ high_conf_threshold ∧
          top.score - ((rest.head?.map Candidate.score).getD 0) ≥ 0.15) →
        (gate_evaluate s).selected_spec = s.selected_spec ∧
        (top.score ≥ clarifying_threshold → (gate_evaluate s).route_expert = false) ∧
        (top.score < clarifying_threshold → (gate_evaluate s).route_expert = true))) := by
  constructor
  · intro h
    simp [gate_evaluate, h]
  · intro top rest h
    have e : gate_evaluate s =
        (if top.score ≥ high_conf_threshold ∧
            top.score - ((rest.head?.map Candidate.score).getD 0) ≥ 0.15 then
          { s with confidence := top.score, selected_spec := some top.spec, route_expert := false }
        else if top.score ≥ clarifying_threshold then
          { s with confidence := top.score, route_expert := false }
        else
          { s with confidence := top.score, route_expert := true }) := by
      simp only [gate_evaluate, h]
      cases rest <;> rfl
    rw [e]
    refine ⟨?_, ?_, ?_⟩
    · split_ifs <;> rfl
    · intro hc
      rw [if_pos hc]
      exact ⟨rfl, rfl⟩
    · intro hn
      rw [if_neg hn]
      by_cases h2 : top.score ≥ clarifying_threshold
      · rw [if_pos h2]
        exact ⟨rfl, fun _ => rfl, fun hlt => absurd h2 (not_le.mpr hlt)⟩
      · rw [if_neg h2]
        exact ⟨rfl, fun hge => absurd hge h2, fun _ => rfl⟩

/-- C2 witness: a lone 0.9-scoring candidate is auto-selected, and an
empty candidate list routes to the expert with confidence 0. -/
theorem claim_c2_witness :
    (gate_evaluate ses_two_cands).confidence = 0.8 ∧
      (gate_evaluate ses_no_candidates).confidence = 0 ∧
      (gate_evaluate ses_no_candidates).route_expert = true := by
  have h1 := (claim_c2_gate_policy ses_two_cands).2
    { spec := spec_pay_day, score := 0.8 } [{ spec := spec_settle_week, score := 0.7 }] rfl
  have h2 := (claim_c2_gate_policy ses_no_candidates).1 rfl
  exact ⟨h1.1, h2.1, h2.2.1⟩

/-! ## C3: expert decision application -/

/-- C3 counterexample: with an empty candidate list but an explicitly
supplied candidate, `apply_expert_decision` mutates nothing — the supplied
candidate is not selected, contradicting the claim that no-mutation occurs
only when no candidate is supplied either. -/
theorem claim_c3_counterexample :
    apply_expert_decision ses_no_candidates (some cand_supplied) = ses_no_candidates ∧
    (apply_expert_decision ses_no_candidates (some cand_supplied)).selected_spec ≠
      some cand_supplied.spec := by
  constructor
  · rfl
  · decide

/-- C3 (amended): when the session has candidates, the supplied candidate's
spec (or the top candidate's, if none is supplied) becomes `selected_spec`
and `route_expert` is cleared; when the session has no candidates, no
mutation occurs even if a candidate was supplied. -/
theorem claim_c3_apply_expert_decision (s : SessionState) :
    (∀ c rest, s.candidates = c :: rest →
      (∀ cand, apply_expert_decision s (some cand) =
        { s with selected_spec := some cand.spec, route_expert := false }) ∧
      apply_expert_decision s none =
        { s with selected_spec := some c.spec, route_expert := false }) ∧
    (s.candidates = [] → ∀ copt, apply_expert_decision s copt = s) := by
  constructor
  · intro c rest h
    constructor
    · intro cand
      simp [apply_expert_decision, expert_apply, h]
    · simp [apply_expert_decision, expert_apply, h]
  · intro h copt
    simp [apply_expert_decision, h]

/-- C3 witness at concrete inputs. -/
theorem claim_c3_witness :
    apply_expert_decision ses_two_cands (some cand_supplied) =
      { ses_two_cands with
          selected_spec := some cand_supplied.spec, route_expert := false } ∧
    apply_expert_decision ses_two_cands none =
      { ses_two_cands with selected_spec := some spec_pay_day, route_expert := false } :=
  ⟨((claim_c3_apply_expert_decision ses_two_cands).1 _ _ rfl).1 cand_supplied,
    ((claim_c3_apply_expert_decision ses_two_cands).1 _ _ rfl).2⟩

/-! ## C4: retrieval scoring formula -/

/-- C4 counterexample: a keyword matching a tag only case-insensitively
does not count — the code lowercases the name and aliases but not the
tags, so the claimed all-lowercased formula disagrees with the code. -/
theorem claim_c4_counterexample :
    retrieval_score spec_tag_case ["gmv"] ≠ claimed_score spec_tag_case ["gmv"] := by
  have h1 : (((["gmv"].map str_lower).toFinset ∩
      (insert (str_lower spec_tag_case.meta.name)
        ((spec_tag_case.meta.aliases.map str_lower).toFinset ∪
          spec_tag_case.meta.tags.toFinset))).card) = 0 := by decide
  have h2 : (((["gmv"].map str_lower).toFinset ∩
      (insert (str_lower spec_tag_case.meta.name)
        ((spec_tag_case.meta.aliases.map str_lower).toFinset ∪
          (spec_tag_case.meta.tags.map str_lower).toFinset))).card) = 1 := by decide
  have hs : spec_tag_case.meta.status = "draft" := rfl
  have hu : spec_tag_case.meta.usage_count = 0 := rfl
  simp only [retrieval_score, score_spec, claimed_score, h1, h2, hs, hu]
  norm_num

/-- C4 (amended): the retriever's score is
`0.6 × |keywords ∩ ({lower name} ∪ lower aliases ∪ tags)| + 0.3 × freshness
+ min(usage/100, 0.1)` — the keywords, name and aliases are lowercased but
the tags are compared as-is. -/
theorem claim_c4_score_formula (spec : MetricSpec) (intent_keywords : List String) :
    retrieval_score spec intent_keywords =
      0.6 * ((((intent_keywords.map str_lower).toFinset ∩
          (insert (str_lower spec.meta.name)
            ((spec.meta.aliases.map str_lower).toFinset ∪
              spec.meta.tags.toFinset))).card : ℚ)) +
      0.3 * (if spec.meta.status = "verified" then 1 else 0.85) +
      min ((spec.meta.usage_count : ℚ) / 100) 0.1 := by
  simp only [retrieval_score, score_spec]
  ring

/-! ## Rendering lemmas -/

theorem str_toList_append (a b : String) : (a ++ b).toList = a.toList ++ b.toList := rfl

/-- On a spec without a template override, `render` emits exactly the
spelled-out default-template output. -/
theorem render_default_eq (spec : MetricSpec) (s : SessionState)
    (h : spec.physical.sql_template = none) :
    render spec s = some (rendered_default spec s) := by
  unfold render
  rw [h]
  rfl

/-- The spec's grain granularity occurs verbatim in the default-template
output (it is the substituted time bucket). -/
theorem time_bucket_infix (spec : MetricSpec) (s : SessionState) :
    spec.semantics.grain.time_granularity.toList <:+: (rendered_default spec s).toList := by
  refine ⟨("-- Show Your Work: " ++ spec.physical.fact_table ++ " / " ++
      spec.physical.time_column ++ " / " ++ spec.physical.measure_column ++
      "\nSELECT ").toList,
    (" AS time_bucket, SUM(" ++ spec.physical.measure_column ++ ") AS metric\nFROM " ++
      spec.physical.fact_table ++ "\nWHERE " ++ spec.physical.time_column ++
      " IS NOT NULL AND " ++ where_clause spec s ++ "\nGROUP BY " ++
      spec.semantics.grain.time_granularity ++ "\nORDER BY " ++
      spec.semantics.grain.time_granularity ++ ";").toList, ?_⟩
  simp [rendered_default, str_toList_append, List.append_assoc]

/-! ## C7: generate_sql precondition -/

/-- C7 counterexample: a session with a selected specification whose SQL
template override names an unknown field also fails (CPython raises
`KeyError` inside `str.format`), so failure does not imply that no
specification was selected. -/
theorem claim_c7_counterexample :
    ses_bad_template.selected_spec.isSome = true ∧
    (generate_sql ses_bad_template).isOk = false := by
  constructor
  · rfl
  · decide

/-- C7 (amended): `generate_sql` fails on every session without a selected
specification (with the `ValueError` message, and — being a pure read — no
session mutation), and succeeds deterministically whenever the selected
specification has no SQL template override; a malformed override can also
make it fail. -/
theorem claim_c7_generate_sql (s : SessionState) :
    (s.selected_spec = none →
      generate_sql s = Except.error "No spec selected; cannot generate SQL") ∧
    (∀ spec, s.selected_spec = some spec → spec.physical.sql_template = none →
      generate_sql s = Except.ok (rendered_default spec s)) := by
  constructor
  · intro h
    simp [generate_sql, h]
  · intro spec hsel htmpl
    simp [generate_sql, hsel, render_default_eq spec s htmpl]

/-- C7 witness at concrete inputs. -/
theorem claim_c7_witness :
    ses_no_candidates.selected_spec = none ∧
    generate_sql ses_no_candidates = Except.error "No spec selected; cannot generate SQL" ∧
    ses_conflict_week.selected_spec = some spec_settle_week ∧
    generate_sql ses_conflict_week =
      Except.ok (rendered_default spec_settle_week ses_conflict_week) :=
  ⟨rfl, (claim_c7_generate_sql ses_no_candidates).1 rfl, rfl,
    (claim_c7_generate_sql ses_conflict_week).2 spec_settle_week rfl rfl⟩

/-! ## C1: conflict-resolution / rendering round trip -/

/-- C1 counterexample: a session holding the settlement-vs-daily notice
whose selected specification has day grain.  Resolving `settle_weekly`
does set the intent's granularity to `周`, yet the successfully rendered
SQL never mentions `周` — the time bucket comes from the spec's grain, not
from the intent. -/
theorem claim_c1_counterexample :
    (resolve_conflict ses_conflict_day "settle_weekly").intent.granularity = some "周" ∧
    (generate_sql (resolve_conflict ses_conflict_day "settle_weekly")).isOk = true ∧
    sql_mentions (resolve_conflict ses_conflict_day "settle_weekly") "周" = false := by
  refine ⟨by decide, by decide, by decide⟩

/-- C1 (amended): resolving `settle_weekly` sets the intent's granularity
to `周` and clears the notice, and the rendered SQL's time bucket is the
selected specification's grain granularity — so the output reflects `周`
when (and, as the counterexample shows, only when) the selected spec's
grain is `周`; the renderer never consults the intent's granularity. -/
theorem claim_c1_resolve_weekly (s : SessionState) (notice : ConflictNotice)
    (opt : ConflictOption) (spec : MetricSpec)
    (h1 : s.conflict = some notice)
    (h2 : notice.options.find? (fun o => o.option_id = "settle_weekly") = some opt)
    (h3 : opt.apply_granularity = some "周")
    (h4 : s.selected_spec = some spec)
    (h5 : spec.physical.sql_template = none) :
    (resolve_conflict s "settle_weekly").intent.granularity = some "周" ∧
    (resolve_conflict s "settle_weekly").conflict = none ∧
    generate_sql (resolve_conflict s "settle_weekly") =
      Except.ok (rendered_default spec (resolve_conflict s "settle_weekly")) ∧
    (spec.semantics.grain.time_granularity = "周" →
      "周".toList <:+:
        (rendered_default spec (resolve_conflict s "settle_weekly")).toList) := by
  have hs : resolve_conflict s "settle_weekly" =
      { s with intent := apply_conflict_option s.intent opt, conflict := none } := by
    simp [resolve_conflict, h1, h2]
  rw [hs]
  refine ⟨?_, rfl, ?_, ?_⟩
  · have ht : opt_str_truthy (some "周") = true := rfl
    simp only [apply_conflict_option, h3, ht, if_true]
    split <;> rfl
  · simp only [generate_sql, h4]
    rw [render_default_eq _ _ h5]
  · intro hg
    rw [← hg]
    exact time_bucket_infix spec _

/-- C1 witness at concrete inputs: with the week-grain spec selected, the
resolved session renders SQL that does bucket by `周`. -/
theorem claim_c1_witness :
    ses_conflict_week.conflict = some notice_settle ∧
    (resolve_conflict ses_conflict_week "settle_weekly").intent.granularity = some "周" ∧
    (resolve_conflict ses_conflict_week "settle_weekly").conflict = none ∧
    generate_sql (resolve_conflict ses_conflict_week "settle_weekly") =
      Except.ok
        (rendered_default spec_settle_week
          (resolve_conflict ses_conflict_week "settle_weekly")) ∧
    "周".toList <:+:
      (rendered_default spec_settle_week
        (resolve_conflict ses_conflict_week "settle_weekly")).toList := by
  have h := claim_c1_resolve_weekly ses_conflict_week notice_settle opt_settle_weekly
    spec_settle_week (by decide) (by decide) rfl rfl rfl
  exact ⟨by decide, h.1, h.2.1, h.2.2.1, h.2.2.2 rfl⟩

/-! ## C10: expert-routing overrides in start_session -/

theorem gate_evaluate_conflict (s : SessionState) :
    (gate_evaluate s).conflict = s.conflict := by
  rcases hc : s.candidates with _ | ⟨top, rest⟩
  · simp [gate_evaluate, hc]
  · simp only [gate_evaluate, hc]
    split
    · rfl
    · split <;> rfl

theorem start_session_core_conflict (store : AssetStore) (sid query user : String) :
    (start_session_core store sid query user).conflict =
      conflict_detect (parse_intent query) := by
  unfold start_session_core
  rw [gate_evaluate_conflict]

/-- C10: whenever the conflict detector fired on the parsed intent or
`force_expert` was passed, the returned session has `route_expert = true`,
while the gate-assigned confidence and selection survive unchanged. -/
theorem claim_c10_start_session_override (store : AssetStore) (sid query user : String)
    (force_expert : Bool)
    (h : (conflict_detect (parse_intent query)).isSome = true ∨ force_expert = true) :
    (start_session store sid query user force_expert).route_expert = true ∧
    (start_session store sid query user force_expert).confidence =
      (start_session_core store sid query user).confidence ∧
    (start_session store sid query user force_expert).selected_spec =
      (start_session_core store sid query user).selected_spec := by
  unfold start_session
  dsimp only
  rcases h with hconf | hforce
  · have hcc : (start_session_core store sid query user).conflict.isSome = true := by
      rw [start_session_core_conflict]
      exact hconf
    rw [if_pos hcc]
    cases force_expert <;> exact ⟨rfl, rfl, rfl⟩
  · subst hforce
    by_cases hcc : (start_session_core store sid query user).conflict.isSome = true <;>
      simp [hcc]

/-- C10 witness: on a one-spec catalog where the gate auto-selects (score
0.9), a conflict-triggering query still comes back with
`route_expert = true` while keeping the auto-selected spec — a session
simultaneously routed to the expert and holding a selection. -/
theorem claim_c10_witness :
    ((conflict_detect (parse_intent "gmv结算当日")).isSome = true ∨ false = true) ∧
    (start_session store_gmv "sid" "gmv结算当日" "u" false).route_expert = true ∧
    (start_session store_gmv "sid" "gmv结算当日" "u" false).confidence =
      (start_session_core store_gmv "sid" "gmv结算当日" "u").confidence ∧
    (start_session store_gmv "sid" "gmv结算当日" "u" false).selected_spec =
      (start_session_core store_gmv "sid" "gmv结算当日" "u").selected_spec ∧
    (start_session store_gmv "sid" "gmv结算当日" "u" false).selected_spec =
      some spec_pay_day := by
  have hscore : score_spec spec_pay_day ([str_lower "gmv"].toFinset) = 0.9 := by
    have hcard : (([str_lower "gmv"].toFinset) ∩
        (insert (str_lower spec_pay_day.meta.name)
          ((spec_pay_day.meta.aliases.map str_lower).toFinset ∪
            spec_pay_day.meta.tags.toFinset))).card = 1 := by decide
    have hst : spec_pay_day.meta.status = "verified" := rfl
    have hu : spec_pay_day.meta.usage_count = 0 := rfl
    simp only [score_spec, hcard, hst, hu, eq_self_iff_true, if_true]
    norm_num [min_def]
  have hretr : retrieve store_gmv ["gmv"] = [{ spec := spec_pay_day, score := 0.9 }] := by
    simp only [retrieve, store_gmv, get_all, List.nil_append, List.map_cons, List.map_nil,
      hscore, stable_sort_desc, stable_sort_desc_idx, List.enum, List.enumFrom,
      List.insertionSort, List.orderedInsert, List.take]
  have hcoresel : (start_session_core store_gmv "sid" "gmv结算当日" "u").selected_spec =
      some spec_pay_day := by
    have hi : parse_intent "gmv结算当日" =
        { raw_query := "gmv结算当日", metrics := ["gmv"], dimensions := [],
          time_range := none, granularity := some "天", filters := [] } := by decide
    unfold start_session_core
    rw [hi]
    dsimp only
    rw [if_neg (by simp : ¬ (["gmv"] : List String) = [])]
    rw [hretr]
    simp only [gate_evaluate]
    rw [if_pos (by constructor <;> norm_num [high_conf_threshold])]
  have hmain := claim_c10_start_session_override store_gmv "sid" "gmv结算当日" "u" false
    (Or.inl (by decide))
  refine ⟨Or.inl (by decide), hmain.1, hmain.2.1, hmain.2.2, ?_⟩
  rw [hmain.2.2, hcoresel]

/-! ## Stable-sort lemmas -/

theorem sorted_stable_sort_desc_idx {α β : Type} [LinearOrder β] (key : α → β)
    (l : List α) : (stable_sort_desc_idx key l).Pairwise (rkey key) :=
  List.sorted_insertionSort (rkey key) l.enum

theorem perm_stable_sort_desc_idx {α β : Type} [LinearOrder β] (key : α → β)
    (l : List α) : List.Perm (stable_sort_desc_idx key l) l.enum :=
  List.perm_insertionSort (rkey key) l.enum

theorem stable_sort_desc_idx_fst_nodup {α β : Type} [LinearOrder β] (key : α → β)
    (l : List α) : ((stable_sort_desc_idx key l).map Prod.fst).Nodup :=
  ((perm_stable_sort_desc_idx key l).map Prod.fst).nodup_iff.mpr
    (List.nodup_enum_map_fst l)

/-- The sorted list is descending in the key, and equal keys keep strictly
increasing original indices (stability). -/
theorem ties_stable_sort_desc_idx {α β : Type} [LinearOrder β] (key : α → β)
    (l : List α) :
    (stable_sort_desc_idx key l).Pairwise
      (fun a b => key b.2 ≤ key a.2 ∧ (key a.2 = key b.2 → a.1 < b.1)) := by
  have h1 := sorted_stable_sort_desc_idx key l
  have h2 : (stable_sort_desc_idx key l).Pairwise (fun a b => a.1 ≠ b.1) :=
    List.pairwise_map.mp (stable_sort_desc_idx_fst_nodup key l)
  refine (h1.and h2).imp ?_
  rintro a b ⟨hr, hne⟩
  rcases hr with hlt | ⟨heq, hle⟩
  · exact ⟨le_of_lt hlt, fun he => absurd (he ▸ hlt) (lt_irrefl _)⟩
  · exact ⟨heq.ge, fun _ => lt_of_le_of_ne hle hne⟩

theorem scores_stable_sort_desc {α β : Type} [LinearOrder β] (key : α → β)
    (l : List α) :
    (stable_sort_desc key l).Pairwise (fun a b => key b ≤ key a) := by
  refine List.pairwise_map.mpr ?_
  refine (sorted_stable_sort_desc_idx key l).imp ?_
  intro a b hr
  rcases hr with hlt | ⟨heq, _⟩
  · exact le_of_lt hlt
  · exact heq.ge

/-! ## C5: retrieval ordering, truncation and empty catalog -/

/-- C5: the retriever's output is exactly the index-tagged stable
descending sort of the scored catalog enumeration, truncated to `top_k`:
its length is at most `top_k`, its scores are non-increasing, equal-score
ties keep strictly increasing catalog-enumeration positions, the sorted
list is a permutation of the enumerated scored list, and an empty catalog
yields the empty list. -/
theorem claim_c5_retrieve_sorted (store : AssetStore) (intent_keywords : List String)
    (top_k : Nat) :
    retrieve store intent_keywords top_k =
      (((retrieve_idx store intent_keywords).map Prod.snd).take top_k).map
        (fun p => { spec := p.1, score := p.2 }) ∧
    (retrieve store intent_keywords top_k).length ≤ top_k ∧
    (retrieve store intent_keywords top_k).Pairwise (fun a b => b.score ≤ a.score) ∧
    ((retrieve_idx store intent_keywords).take top_k).Pairwise
      (fun a b => b.2.2 ≤ a.2.2 ∧ (a.2.2 = b.2.2 → a.1 < b.1)) ∧
    List.Perm (retrieve_idx store intent_keywords) (scored_list store intent_keywords).enum ∧
    retrieve { cold_specs := [], hot_specs := [] } intent_keywords top_k = [] := by
  refine ⟨rfl, ?_, ?_, ?_, perm_stable_sort_desc_idx _ _, ?_⟩
  · simp only [retrieve, List.length_map, List.length_take]
    exact min_le_left _ _
  · refine List.pairwise_map.mpr ?_
    refine List.Pairwise.sublist (List.take_sublist _ _) ?_
    exact scores_stable_sort_desc Prod.snd _
  · exact List.Pairwise.sublist (List.take_sublist _ _)
      (ties_stable_sort_desc_idx Prod.snd _)
  · simp [retrieve, get_all, stable_sort_desc, stable_sort_desc_idx, List.take_nil,
      List.enum]

/-- C5 witness at concrete inputs. -/
theorem claim_c5_witness :
    (retrieve store_gmv ["gmv"] 5).length ≤ 5 ∧
    (retrieve store_gmv ["gmv"] 5).Pairwise (fun a b => b.score ≤ a.score) ∧
    retrieve { cold_specs := [], hot_specs := [] } ["gmv"] 5 = [] :=
  ⟨(claim_c5_retrieve_sorted store_gmv ["gmv"] 5).2.1,
    (claim_c5_retrieve_sorted store_gmv ["gmv"] 5).2.2.1,
    (claim_c5_retrieve_sorted { cold_specs := [], hot_specs := [] } ["gmv"] 5).2.2.2.2.2⟩

/-! ## C9: clarification-question ranking -/

/-- Every spec carries a time-semantics slot value (the field is
mandatory), computed from the `natural` substring heuristic. -/
theorem slot_values_time (spec : MetricSpec) :
    dictLookup "time_semantics" (slot_values_for_spec spec) =
      some (if contains_sub spec.semantics.time_semantics.business_day_rule "natural" = true
        then "自然日(UTC+8)" else "业务日") := by
  unfold slot_values_for_spec
  by_cases h1 : opt_str_truthy spec.semantics.metric_caliber <;>
    rcases h2 : spec.semantics.industry_mapping with _ | im <;>
      simp [h1, h2, dictLookup]

theorem length_stable_sort_desc {α β : Type} [LinearOrder β] (key : α → β)
    (l : List α) : (stable_sort_desc key l).length = l.length := by
  simp [stable_sort_desc, stable_sort_desc_idx, List.length_insertionSort]

/-- C9: ranked gains are non-increasing with at most `max_questions`
questions returned; and with no answered slots, 2 distinct caliber values
and 1 distinct mapping value, the caliber question comes strictly before
the industry-mapping question. -/
theorem claim_c9_next_questions :
    (∀ (s : SessionState) (maxq : Nat),
      ((stable_sort_desc Prod.fst (ranked_questions s)).take maxq).Pairwise
        (fun a b => b.1 ≤ a.1) ∧
      ((stable_sort_desc_idx Prod.fst (ranked_questions s)).take maxq).Pairwise
        (fun a b => b.2.1 ≤ a.2.1 ∧ (a.2.1 = b.2.1 → a.1 < b.1)) ∧
      (next_questions s maxq).length ≤ maxq) ∧
    (∀ s : SessionState, s.clarifications = [] →
      (slot_values_across s "metric_caliber").card = 2 →
      (slot_values_across s "industry_mapping").card = 1 →
      ((next_questions s).map ClarificationQuestion.slot =
          ["metric_caliber", "industry_mapping", "time_semantics"] ∨
        (next_questions s).map ClarificationQuestion.slot =
          ["metric_caliber", "time_semantics", "industry_mapping"]) ∧
      ((next_questions s).map ClarificationQuestion.slot).indexOf "metric_caliber" <
        ((next_questions s).map ClarificationQuestion.slot).indexOf "industry_mapping") := by
  constructor
  · intro s maxq
    refine ⟨?_, ?_, ?_⟩
    · exact List.Pairwise.sublist (List.take_sublist _ _)
        (scores_stable_sort_desc Prod.fst _)
    · exact List.Pairwise.sublist (List.take_sublist _ _)
        (ties_stable_sort_desc_idx Prod.fst _)
    · simp only [next_questions, List.length_map, List.length_take]
      exact min_le_left _ _
  · intro s hclar hcal hmap
    have hcand : s.candidates ≠ [] := by
      intro h
      rw [show slot_values_across s "metric_caliber" = ∅ by
        simp [slot_values_across, h]] at hcal
      simp at hcal
    obtain ⟨c, rest, hcr⟩ : ∃ c rest, s.candidates = c :: rest := by
      rcases hc : s.candidates with _ | ⟨c, rest⟩
      · exact absurd hc hcand
      · exact ⟨c, rest, rfl⟩
    have ht1 : 1 ≤ (slot_values_across s "time_semantics").card := by
      have hmem :
          (if contains_sub c.spec.semantics.time_semantics.business_day_rule "natural" = true
            then "自然日(UTC+8)" else "业务日") ∈ slot_values_across s "time_semantics" := by
        simp [slot_values_across, hcr, List.filterMap_cons, slot_values_time]
      exact Finset.card_pos.mpr ⟨_, hmem⟩
    have ht2 : (slot_values_across s "time_semantics").card ≤ 2 := by
      have hsub : slot_values_across s "time_semantics" ⊆
          ({"自然日(UTC+8)", "业务日"} : Finset String) := by
        intro x hx
        simp only [slot_values_across, List.mem_toFinset, List.mem_filterMap] at hx
        obtain ⟨c', hc', hlk⟩ := hx
        rw [slot_values_time] at hlk
        rw [← Option.some.inj hlk]
        by_cases hnat :
            contains_sub c'.spec.semantics.time_semantics.business_day_rule "natural" = true <;>
          simp [hnat]
      calc (slot_values_across s "time_semantics").card
          ≤ ({"自然日(UTC+8)", "业务日"} : Finset String).card := Finset.card_le_card hsub
        _ ≤ 2 := by decide
    have hrank : ranked_questions s =
        [(2, { slot := "metric_caliber", question := "请选择 GMV 口径",
               options := ["下单", "支付", "结算"],
               recommended := recommended_value "metric_caliber" s }),
         (1, { slot := "industry_mapping", question := "请选择行业定义",
               options := ["类目行业", "商家行业", "内容行业"],
               recommended := recommended_value "industry_mapping" s }),
         ((slot_values_across s "time_semantics").card,
            { slot := "time_semantics", question := "请选择时间口径",
              options := ["自然日(UTC+8)", "业务日"],
              recommended := recommended_value "time_semantics" s })] := by
      have hne0 : (slot_values_across s "time_semantics").card ≠ 0 := by omega
      have hpos : (slot_values_across s "time_semantics").Nonempty :=
        Finset.card_pos.mp (Nat.pos_of_ne_zero hne0)
      simp only [ranked_questions, QUESTION_BANK, List.filterMap_cons, List.filterMap_nil,
        hclar, dictLookup, Option.isSome_none, Bool.false_eq_true, if_false, hcal, hmap]
      norm_num [hne0, hpos]
    have hcase : (slot_values_across s "time_semantics").card = 1 ∨
        (slot_values_across s "time_semantics").card = 2 := by omega
    rcases hcase with h1 | h1
    · rw [h1] at hrank
      have hnq : (next_questions s).map ClarificationQuestion.slot =
          ["metric_caliber", "industry_mapping", "time_semantics"] := by
        simp only [next_questions, hrank]
        rw [List.take_of_length_le (by rw [length_stable_sort_desc]; simp)]
        simp [stable_sort_desc, stable_sort_desc_idx, List.enum, List.enumFrom,
          List.insertionSort, List.orderedInsert, rkey]
      rw [hnq]
      exact ⟨Or.inl rfl, by decide⟩
    · rw [h1] at hrank
      have hnq : (next_questions s).map ClarificationQuestion.slot =
          ["metric_caliber", "time_semantics", "industry_mapping"] := by
        simp only [next_questions, hrank]
        rw [List.take_of_length_le (by rw [length_stable_sort_desc]; simp)]
        simp [stable_sort_desc, stable_sort_desc_idx, List.enum, List.enumFrom,
          List.insertionSort, List.orderedInsert, rkey]
      rw [hnq]
      exact ⟨Or.inr rfl, by decide⟩

/-- C9 witness: two candidates with calibers 支付/结算 but one shared
industry-mapping label rank the caliber question first. -/
theorem claim_c9_witness :
    ses_two_cands.clarifications = [] ∧
    (slot_values_across ses_two_cands "metric_caliber").card = 2 ∧
    (slot_values_across ses_two_cands "industry_mapping").card = 1 ∧
    ((next_questions ses_two_cands).map ClarificationQuestion.slot).indexOf "metric_caliber" <
      ((next_questions ses_two_cands).map ClarificationQuestion.slot).indexOf
        "industry_mapping" := by
  refine ⟨rfl, by decide, by decide, ?_⟩
  exact (claim_c9_next_questions.2 ses_two_cands rfl (by decide) (by decide)).2

end Sqless
